import Mathlib

/-!
Verification development for the ChainLottery client.

This file gives a shallow embedding of the state-synchronization and
data-reconciliation logic of the React components of the repository:
the PastWinners component (active file and the divergent backup file),
the ParticipantsList component, the BuyTickets purchase flow, the Home
page shared selection state, and the PromoBanner slide rotation.

Asynchronous contract reads (getDrawInfo, getDrawWinners,
getWinningNumbers, getTotalTicketsSold) are modelled as oracle results
passed in as arguments: a call that can reject is an Except value, a
call that can return null wraps its payload in Option.  React useState
cells become fields of explicit state records, and event handlers
become state-transition functions.
-/

namespace ChainLottery

/-! ## Data model -/

/-- One set of ticket numbers attached to a winner record
(5 main numbers plus a LOTTO number), from the Winner type of
lotteryContract as used by PastWinners. -/
structure TicketNums where
  numbers : List Nat
  lottoNumber : Nat
  deriving Repr, DecidableEq

/-- A winner record as consumed by the PastWinners component.
Amounts are kept as the decimal strings the client passes around. -/
structure Winner where
  winnerAddress : String
  amountWon : String
  drawId : Nat
  timestamp : Nat
  ticketNumbers : List TicketNums
  winningNumbers : Option (List Nat)
  transactionHash : Option String
  deriving Repr, DecidableEq

/-- Draw information returned by getDrawInfo; only the completed flag is
read by the PastWinners component. -/
structure DrawInfo where
  completed : Bool
  deriving Repr, DecidableEq

/-- A participant ticket as built by the ParticipantsList query. -/
structure Ticket where
  walletAddress : String
  numbers : List Nat
  lottoNumber : Option Nat
  timestamp : Nat
  ticketId : String
  deriving Repr, DecidableEq

/-! ## ParticipantsList: series metadata and fallback counts -/

/-- getSeriesTitle from ParticipantsList: the fixed display name of each
series index (the component closes over sharedSeriesIndex, modelled here
as the argument; undefined hits the default branch). -/
def getSeriesTitle (sharedSeriesIndex : Option Nat) : String :=
  match sharedSeriesIndex with
  | some 0 => "Beginner Series"
  | some 1 => "Intermediate Series"
  | some 2 => "Monthly Mega Series"
  | some 3 => "Weekly Express Series"
  | some 4 => "Quarterly Rewards Series"
  | some 5 => "Annual Championship Series"
  | _ => "Lottery Series"

/-- getTicketPrice from ParticipantsList: the fixed ticket price string
of each series index. -/
def getTicketPrice (sharedSeriesIndex : Option Nat) : String :=
  match sharedSeriesIndex with
  | some 0 => "0.0001"
  | some 1 => "0.0002"
  | some 2 => "0.0005"
  | some 3 => "0.0001"
  | some 4 => "0.0008"
  | some 5 => "0.001"
  | _ => "0.0001"

/-- The verified-count fallback table used in the ParticipantsList
query function when getTotalTicketsSold throws: the if-else chain over
(sharedSeriesIndex, sharedDrawId), with participantCount initialized
to 0 before it. -/
def fallbackParticipantCount (sharedSeriesIndex : Option Nat) (sharedDrawId : Nat) : Nat :=
  if sharedSeriesIndex = some 0 ∧ sharedDrawId = 1 then 8
  else if sharedSeriesIndex = some 1 ∧ sharedDrawId = 2 then 6
  else if sharedSeriesIndex = some 2 ∧ sharedDrawId = 1 then 5
  else if sharedSeriesIndex = some 3 ∧ sharedDrawId = 1 then 7
  else if sharedSeriesIndex = some 3 ∧ sharedDrawId = 2 then 4
  else if sharedSeriesIndex = some 4 ∧ sharedDrawId = 1 then 6
  else if sharedSeriesIndex = some 5 ∧ sharedDrawId = 1 then 9
  else 0

/-- Step 1 of the ParticipantsList query function: the participant count
used for the subsequent ticket scan, given the result of the
getTotalTicketsSold contract call (ok value, or error when it throws). -/
def participantCountStep (countRes : Except Unit Nat)
    (sharedSeriesIndex : Option Nat) (sharedDrawId : Nat) : Nat :=
  match countRes with
  | .ok c => c
  | .error _ => fallbackParticipantCount sharedSeriesIndex sharedDrawId

/-! ## PromoBanner slide rotation -/

/-- A promotional banner entry (id and texts; image urls and fallback
colors are presentation-only and omitted). -/
structure BannerImage where
  id : Nat
  title : String
  description : String
  deriving Repr, DecidableEq

/-- The six bannerImages of PromoBanner. -/
def bannerImages : List BannerImage :=
  [ { id := 1, title := "JACKPOT ALERT",
      description := "Current Jackpot Over $10 Million!" },
    { id := 2, title := "NEW PLAYERS BONUS",
      description := "Get 20% Extra on Your First Ticket Purchase" },
    { id := 3, title := "WINNERS EVERY DAY",
      description := "Join Thousands of Winners This Month" },
    { id := 4, title := "PLAY RESPONSIBLY",
      description := "Set Limits and Enjoy The Game" },
    { id := 5, title := "WEEKLY DRAWS",
      description := "Every Tuesday and Friday - Never Miss Out!" },
    { id := 6, title := "CRYPTO PAYOUTS",
      description := "Instant Withdrawals in ETH or BNB" } ]

theorem bannerImages_length : bannerImages.length = 6 := rfl

/-- goToNextSlide from PromoBanner: currentIndex becomes
(prevIndex + 1) % bannerImages.length. -/
def goToNextSlide (prevIndex : Nat) : Nat :=
  (prevIndex + 1) % bannerImages.length

/-- goToPrevSlide from PromoBanner: currentIndex becomes
(prevIndex - 1 + bannerImages.length) % bannerImages.length; the
addition is reordered so the Nat subtraction never truncates, matching
the JavaScript integer value for every prevIndex. -/
def goToPrevSlide (prevIndex : Nat) : Nat :=
  (prevIndex + bannerImages.length - 1) % bannerImages.length

/-! ## BuyTickets number selection -/

/-- toggleNumber from BuyTickets: remove the number when already
selected, append it when fewer than 5 numbers are selected, otherwise
leave the selection unchanged. -/
def toggleNumber (num : Nat) (prev : List Nat) : List Nat :=
  if num ∈ prev then prev.filter (fun n => n ≠ num)
  else if prev.length < 5 then prev ++ [num]
  else prev

/-- A sequence of toggleNumber clicks applied left to right to a
starting selection. -/
def applyToggles (ops : List Nat) (start : List Nat) : List Nat :=
  ops.foldl (fun sel n => toggleNumber n sel) start

/-! ## PastWinners: draw completion, fetch, refresh

Shared by the active component file and the backup file: both define
the same checkDrawCompletion helper.  The oracle arguments stand for
the awaited results of the contract reads, in the order the code
performs them. -/

/-- checkDrawCompletion from PastWinners: false without a draw id
(the component guard !sharedDrawId, so a 0 draw id also bails out);
when getDrawInfo throws or returns no draw, draw id 1 in series 0 or
with an undefined series index is special-cased as completed. -/
def checkDrawCompletion (sharedDrawId : Nat) (sharedSeriesIndex : Option Nat)
    (drawInfoRes : Except Unit (Option DrawInfo)) : Bool :=
  if sharedDrawId = 0 then false
  else
    match drawInfoRes with
    | .ok (some draw) => draw.completed
    | .ok none => decide (sharedDrawId = 1 ∧
        (sharedSeriesIndex = some 0 ∨ sharedSeriesIndex = none))
    | .error _ => decide (sharedDrawId = 1 ∧
        (sharedSeriesIndex = some 0 ∨ sharedSeriesIndex = none))

/-- The hardcoded fallback winner the PastWinners component fabricates
for draw id 1 in series 0; its timestamp is Date.now(), passed in
here as the argument now. -/
def fallbackWinner (now : Nat) : Winner :=
  { winnerAddress := "0x03C4bcC1599627e0f766069Ae70E40C62b5d6f1e"
    amountWon := "0.0000064"
    drawId := 1
    timestamp := now
    ticketNumbers := [ { numbers := [1, 2, 3, 4, 5], lottoNumber := 8 } ]
    winningNumbers := none
    transactionHash := none }

/-- Attach the winning numbers of the draw to a winner record, as the
object-spread enrichment step does. -/
def addWinningNumbers (wn : List Nat) (w : Winner) : Winner :=
  { w with winningNumbers := some wn }

/-- Erase the winningNumbers annotation, to compare winner lists up to
the enrichment step. -/
def coreWinner (w : Winner) : Winner :=
  { w with winningNumbers := none }

/-- The winning-numbers enrichment step of fetchWinners: when the list
is non-empty and the draw is completed, a successful non-empty
getWinningNumbers result is spread onto every winner; a throwing or
empty result leaves the list alone. -/
def applyWinningNumbers (completed : Bool) (wnRes : Except Unit (List Nat))
    (ws : List Winner) : List Winner :=
  if 0 < ws.length ∧ completed = true then
    match wnRes with
    | .ok wn => if 0 < wn.length then ws.map (addWinningNumbers wn) else ws
    | .error _ => ws
  else ws

/-- fetchWinners of the active PastWinners component (the load effect),
as a function of the oracle results: start from the empty list, install
the hardcoded fallback winner in the draw-1/series-0-or-undefined
special case, let a successful non-empty getDrawWinners result override
it (a throw is swallowed and keeps the fallback), then run the
winning-numbers enrichment.  The getTotalWinners call only feeds an
informational counter and is not modelled. -/
def fetchWinners (sharedDrawId : Nat) (sharedSeriesIndex : Option Nat) (now : Nat)
    (drawInfoRes : Except Unit (Option DrawInfo))
    (drawWinnersRes : Except Unit (List Winner))
    (wnRes : Except Unit (List Nat)) : List Winner :=
  let completed := checkDrawCompletion sharedDrawId sharedSeriesIndex drawInfoRes
  let base : List Winner :=
    if sharedDrawId = 1 ∧ (sharedSeriesIndex = some 0 ∨ sharedSeriesIndex = none)
    then [fallbackWinner now] else []
  let fetched : List Winner :=
    match drawWinnersRes with
    | .ok contractWinners =>
        if 0 < contractWinners.length then contractWinners else base
    | .error _ => base
  applyWinningNumbers completed wnRes fetched

/-- refreshWinners of the ACTIVE PastWinners component: Promise.all over
the three reads, so a rejection of getDrawWinners or getWinningNumbers
reaches the catch and leaves the winners state unchanged (modelled as
none); on success the fetched list (with no fallback injection) gets
the winning-numbers enrichment and is stored. -/
def refreshWinners (sharedDrawId : Nat) (sharedSeriesIndex : Option Nat)
    (drawInfoRes : Except Unit (Option DrawInfo))
    (drawWinnersRes : Except Unit (List Winner))
    (wnRes : Except Unit (List Nat)) : Option (List Winner) :=
  if sharedDrawId = 0 then none
  else
    match drawWinnersRes, wnRes with
    | .ok fetchedWinners, .ok winningNumbers =>
        let completed := checkDrawCompletion sharedDrawId sharedSeriesIndex drawInfoRes
        some (if 0 < winningNumbers.length ∧ completed = true ∧ 0 < fetchedWinners.length
              then fetchedWinners.map (addWinningNumbers winningNumbers)
              else fetchedWinners)
    | _, _ => none

/-- refreshWinners of the BACKUP file PastWinners.tsx.bak: same
Promise.all shape, but before the enrichment it injects the hardcoded
fallback winner when the selection is draw 1 in series 0 or undefined
and the contract returned no winners. -/
def refreshWinnersBak (sharedDrawId : Nat) (sharedSeriesIndex : Option Nat) (now : Nat)
    (drawInfoRes : Except Unit (Option DrawInfo))
    (drawWinnersRes : Except Unit (List Winner))
    (wnRes : Except Unit (List Nat)) : Option (List Winner) :=
  if sharedDrawId = 0 then none
  else
    match drawWinnersRes, wnRes with
    | .ok fetchedWinners0, .ok winningNumbers =>
        let completed := checkDrawCompletion sharedDrawId sharedSeriesIndex drawInfoRes
        let fetchedWinners : List Winner :=
          if sharedDrawId = 1 ∧
             (sharedSeriesIndex = some 0 ∨ sharedSeriesIndex = none) ∧
             fetchedWinners0.length = 0
          then [fallbackWinner now] else fetchedWinners0
        some (if 0 < winningNumbers.length ∧ completed = true ∧ 0 < fetchedWinners.length
              then fetchedWinners.map (addWinningNumbers winningNumbers)
              else fetchedWinners)
    | _, _ => none

/-! ## PastWinners: load-effect change guard -/

/-- The useState cells of PastWinners touched by the opening guard of
its load effect. -/
structure PWState where
  winners : List Winner
  isLoading : Bool
  previousDrawId : Option Nat
  previousSeriesIndex : Option Nat
  deriving Repr, DecidableEq

/-- The parameter-change test at the top of the PastWinners load
effect: a previous value is tracked (not undefined) and differs from
the current prop. -/
def paramsChanged (sharedDrawId sharedSeriesIndex : Option Nat) (s : PWState) : Bool :=
  (s.previousDrawId.isSome && (sharedDrawId != s.previousDrawId)) ||
  (s.previousSeriesIndex.isSome && (sharedSeriesIndex != s.previousSeriesIndex))

/-- The opening guard step of the PastWinners load effect: clear the
winners and set loading when the parameters changed, then always record
the current props as the previous values. -/
def loadEffectGuard (sharedDrawId sharedSeriesIndex : Option Nat) (s : PWState) : PWState :=
  let s1 := if paramsChanged sharedDrawId sharedSeriesIndex s
            then { s with winners := [], isLoading := true } else s
  { s1 with previousDrawId := sharedDrawId, previousSeriesIndex := sharedSeriesIndex }

/-! ## Home page shared selection state -/

/-- The selection state kept at the Home page level together with the
mirrored selection inside the useLotteryData hook: homeSeriesIndex and
homeDrawId are the Home useState cells, ldSeriesIndex and ldDrawId the
hook selection, refreshTrigger the forced-refresh counter. -/
structure HomeState where
  homeSeriesIndex : Option Nat
  homeDrawId : Option Nat
  ldSeriesIndex : Option Nat
  ldDrawId : Option Nat
  refreshTrigger : Nat
  deriving Repr, DecidableEq

/-- A React SetStateAction for the series index: either a direct value
or a function of the current value. -/
def resolveSetStateAction (value : Option Nat ⊕ (Option Nat → Option Nat))
    (current : Option Nat) : Option Nat :=
  match value with
  | .inl v => v
  | .inr f => f current

/-- The per-series default draw id chain of handleHomeSeriesIndexChange
in Home.tsx: series 0 through 5 map to draws 1 through 6, anything else
falls back to the initial defaultDrawId of 1. -/
def defaultDrawIdForSeries : Option Nat → Nat
  | some 0 => 1
  | some 1 => 2
  | some 2 => 3
  | some 3 => 4
  | some 4 => 5
  | some 5 => 6
  | _ => 1

/-- Modelled from the spec: the setSelectedSeriesIndex and
setSelectedDrawId setters used by handleHomeSeriesIndexChange in
Home.tsx come from the useLotteryData hook, whose source file is
missing here; per the glossary (shared UI-level series/draw selection
propagated via props and context) they are modelled as plain writes to
the hook selection cells.  The handler itself follows Home.tsx: it
resolves the SetStateAction, picks the per-series default draw id,
writes both the Home cells and the hook cells, and bumps the refresh
trigger. -/
def handleHomeSeriesIndexChange (value : Option Nat ⊕ (Option Nat → Option Nat))
    (s : HomeState) : HomeState :=
  let newSeriesIndex := resolveSetStateAction value s.homeSeriesIndex
  let defaultDrawId := defaultDrawIdForSeries newSeriesIndex
  { s with homeSeriesIndex := newSeriesIndex
           homeDrawId := some defaultDrawId
           ldSeriesIndex := newSeriesIndex
           ldDrawId := some defaultDrawId
           refreshTrigger := s.refreshTrigger + 1 }

/-! ## BuyTickets purchase flow -/

/-- The environment the BuyTickets handlers read: wallet connection,
the current selection, draw availability, and the countdown value
(days, hours, minutes, seconds) that useLotteryData may or may not
provide.  It is held fixed over a run of the modal flow. -/
structure BuyEnv where
  isConnected : Bool
  selectedNumbers : List Nat
  selectedLottoNumber : Option Nat
  drawAvailable : Bool
  timeRemaining : Option (Nat × Nat × Nat × Nat)
  deriving Repr, DecidableEq

/-- isTimeRemainingZero from BuyTickets: all four countdown components
are zero; an absent timeRemaining is falsy in the source conjunction,
hence false here. -/
def isTimeRemainingZero (e : BuyEnv) : Bool :=
  match e.timeRemaining with
  | some (d, h, m, s) => decide (d = 0 ∧ h = 0 ∧ m = 0 ∧ s = 0)
  | none => false

/-- The modal flags of BuyTickets together with a flag recording that
the buyTicket contract call was invoked. -/
structure BuyState where
  showWalletModal : Bool
  showBuyConfirmModal : Bool
  showReconfirmModal : Bool
  showPendingModal : Bool
  boughtTicket : Bool
  deriving Repr, DecidableEq

/-- All modals closed, nothing bought. -/
def initialBuyState : BuyState :=
  { showWalletModal := false, showBuyConfirmModal := false,
    showReconfirmModal := false, showPendingModal := false,
    boughtTicket := false }

/-- handleBuyClick from BuyTickets: with no wallet, only open the
wallet modal; otherwise run the selection, availability and countdown
checks before opening the buy-confirmation modal. -/
def handleBuyClick (e : BuyEnv) (s : BuyState) : BuyState :=
  if e.isConnected = false then { s with showWalletModal := true }
  else if ¬ e.selectedNumbers.length = 5 ∨ e.selectedLottoNumber = none then s
  else if e.drawAvailable = false then s
  else if isTimeRemainingZero e = true then s
  else { s with showBuyConfirmModal := true }

/-- handleInitialConfirm from BuyTickets: re-run the checks, close the
first confirmation modal and open the reconfirmation modal. -/
def handleInitialConfirm (e : BuyEnv) (s : BuyState) : BuyState :=
  if ¬ e.selectedNumbers.length = 5 ∨ e.selectedLottoNumber = none then s
  else if e.drawAvailable = false then { s with showBuyConfirmModal := false }
  else if isTimeRemainingZero e = true then { s with showBuyConfirmModal := false }
  else { s with showBuyConfirmModal := false, showReconfirmModal := true }

/-- handleConfirmPurchase from BuyTickets: re-run the checks, close the
reconfirmation modal, show the pending modal and invoke the buyTicket
contract call. -/
def handleConfirmPurchase (e : BuyEnv) (s : BuyState) : BuyState :=
  if ¬ e.selectedNumbers.length = 5 ∨ e.selectedLottoNumber = none then s
  else if e.drawAvailable = false then { s with showReconfirmModal := false }
  else if isTimeRemainingZero e = true then { s with showReconfirmModal := false }
  else { s with showReconfirmModal := false, showPendingModal := true,
                boughtTicket := true }

/-- User interactions in the purchase flow: clicking the buy button,
confirming in either modal (only possible while that modal is open:
the modal onConfirm is reachable only when its open prop is true), and
the onClose handlers of the three dialogs. -/
inductive BuyEvent where
  | buyClick
  | initialConfirm
  | confirmPurchase
  | closeWallet
  | closeBuyConfirm
  | closeReconfirm
  deriving Repr, DecidableEq

/-- One interaction step of the BuyTickets modal flow. -/
def buyStep (e : BuyEnv) (s : BuyState) : BuyEvent → BuyState
  | .buyClick => handleBuyClick e s
  | .initialConfirm =>
      if s.showBuyConfirmModal = true then handleInitialConfirm e s else s
  | .confirmPurchase =>
      if s.showReconfirmModal = true then handleConfirmPurchase e s else s
  | .closeWallet => { s with showWalletModal := false }
  | .closeBuyConfirm => { s with showBuyConfirmModal := false }
  | .closeReconfirm => { s with showReconfirmModal := false }

/-- Run a sequence of interactions from the initial state. -/
def runBuyFlow (e : BuyEnv) (events : List BuyEvent) : BuyState :=
  events.foldl (buyStep e) initialBuyState

/-- All five purchase preconditions at once. -/
def buyGuardsOk (e : BuyEnv) : Bool :=
  e.isConnected && decide (e.selectedNumbers.length = 5) &&
  e.selectedLottoNumber.isSome && e.drawAvailable && !(isTimeRemainingZero e)

/-! ## ParticipantsList pagination -/

/-- The page count computed in renderParticipantsView:
Math.max(1, Math.ceil(totalTickets / pageSize)); for a positive
pageSize the ceiling division is (totalTickets + pageSize - 1) /
pageSize over Nat. -/
def pageCount (totalTickets pageSize : Nat) : Nat :=
  max 1 ((totalTickets + pageSize - 1) / pageSize)

/-- JavaScript Array.prototype.slice for nonnegative start and end:
the elements with indices in [start, min(end, length)). -/
def jsSlice (l : List Ticket) (start stop : Nat) : List Ticket :=
  (l.take stop).drop start

/-- The tickets rendered on the current page:
ticketsToRender.slice(startIndex, endIndex) with
startIndex = (currentPage - 1) * pageSize and
endIndex = startIndex + pageSize. -/
def currentTickets (ticketsToRender : List Ticket) (currentPage pageSize : Nat) :
    List Ticket :=
  jsSlice ticketsToRender ((currentPage - 1) * pageSize)
    ((currentPage - 1) * pageSize + pageSize)

/-- The page number the i-th pagination slot computes, over Int because
the JavaScript arithmetic can go negative before the validity filter. -/
def pageNumberAt (pc currentPage : Nat) (i : Nat) : Int :=
  if pc ≤ 5 ∨ currentPage ≤ 3 then (i : Int) + 1
  else if pc - 2 ≤ currentPage then (pc : Int) - 4 + i
  else (currentPage : Int) - 2 + i

/-- The page numbers rendered as pagination links: the five slots with
their only-render-if-valid filter, plus the trailing last-page link in
the ellipsis branch. -/
def renderedPageLinks (pc currentPage : Nat) : List Int :=
  ((List.range (min 5 pc)).filterMap fun i =>
    let p := pageNumberAt pc currentPage i
    if 0 < p ∧ p ≤ (pc : Int) then some p else none) ++
  (if 5 < pc ∧ currentPage < pc - 2 then [(pc : Int)] else [])

/-- The PaginationPrevious click handler:
setCurrentPage(Math.max(1, currentPage - 1)). -/
def prevPageClick (currentPage : Nat) : Nat :=
  max 1 (currentPage - 1)

/-- The PaginationNext click handler:
setCurrentPage(Math.min(pageCount, currentPage + 1)). -/
def nextPageClick (pc currentPage : Nat) : Nat :=
  min pc (currentPage + 1)

/-! ## Theorems -/

/-- C6: For every series index 0 through 5, getSeriesTitle and
getTicketPrice return the fixed name and ticket price of that series
(Beginner 0.0001, Intermediate 0.0002, Monthly Mega 0.0005, Weekly
Express 0.0001, Quarterly Rewards 0.0008, Annual Championship 0.001);
any other index, including an undefined one, yields the defaults
Lottery Series and 0.0001. -/
theorem series_title_and_price_table :
    (getSeriesTitle (some 0) = "Beginner Series" ∧ getTicketPrice (some 0) = "0.0001") ∧
    (getSeriesTitle (some 1) = "Intermediate Series" ∧ getTicketPrice (some 1) = "0.0002") ∧
    (getSeriesTitle (some 2) = "Monthly Mega Series" ∧ getTicketPrice (some 2) = "0.0005") ∧
    (getSeriesTitle (some 3) = "Weekly Express Series" ∧ getTicketPrice (some 3) = "0.0001") ∧
    (getSeriesTitle (some 4) = "Quarterly Rewards Series" ∧ getTicketPrice (some 4) = "0.0008") ∧
    (getSeriesTitle (some 5) = "Annual Championship Series" ∧ getTicketPrice (some 5) = "0.001") ∧
    (getSeriesTitle none = "Lottery Series" ∧ getTicketPrice none = "0.0001") ∧
    (∀ n : Nat, 5 < n →
      getSeriesTitle (some n) = "Lottery Series" ∧ getTicketPrice (some n) = "0.0001") := by
  refine ⟨⟨rfl, rfl⟩, ⟨rfl, rfl⟩, ⟨rfl, rfl⟩, ⟨rfl, rfl⟩, ⟨rfl, rfl⟩, ⟨rfl, rfl⟩,
    ⟨rfl, rfl⟩, ?_⟩
  intro n hn
  rcases n with _ | _ | _ | _ | _ | _ | k
  · omega
  · omega
  · omega
  · omega
  · omega
  · omega
  · exact ⟨rfl, rfl⟩

/-- Witness for the default branch of the series table, at index 7. -/
theorem series_title_and_price_table_witness :
    5 < 7 ∧ (getSeriesTitle (some 7) = "Lottery Series" ∧ getTicketPrice (some 7) = "0.0001") :=
  ⟨by decide, series_title_and_price_table.2.2.2.2.2.2.2 7 (by decide)⟩

/-- C3: When getTotalTicketsSold throws, the participant count used for
the ticket scan is the verified-count fallback: 8 for (0,1), 6 for
(1,2), 5 for (2,1), 7 for (3,1), 4 for (3,2), 6 for (4,1), 9 for
(5,1), and 0 for every other (seriesIndex, drawId) pair. -/
theorem participants_fallback_counts :
    (participantCountStep (.error ()) (some 0) 1 = 8 ∧
     participantCountStep (.error ()) (some 1) 2 = 6 ∧
     participantCountStep (.error ()) (some 2) 1 = 5 ∧
     participantCountStep (.error ()) (some 3) 1 = 7 ∧
     participantCountStep (.error ()) (some 3) 2 = 4 ∧
     participantCountStep (.error ()) (some 4) 1 = 6 ∧
     participantCountStep (.error ()) (some 5) 1 = 9) ∧
    ∀ (si : Option Nat) (d : Nat),
      (si, d) ∉ ([(some 0, 1), (some 1, 2), (some 2, 1), (some 3, 1),
                  (some 3, 2), (some 4, 1), (some 5, 1)] : List (Option Nat × Nat)) →
      participantCountStep (.error ()) si d = 0 := by
  constructor
  · exact ⟨rfl, rfl, rfl, rfl, rfl, rfl, rfl⟩
  · intro si d h
    unfold participantCountStep fallbackParticipantCount
    split_ifs with h1 h2 h3 h4 h5 h6 h7
    · exact absurd (by simp [h1.1, h1.2]) h
    · exact absurd (by simp [h2.1, h2.2]) h
    · exact absurd (by simp [h3.1, h3.2]) h
    · exact absurd (by simp [h4.1, h4.2]) h
    · exact absurd (by simp [h5.1, h5.2]) h
    · exact absurd (by simp [h6.1, h6.2]) h
    · exact absurd (by simp [h7.1, h7.2]) h
    · rfl

/-- Witness for the catch-all of the fallback table, at pair (9, 3). -/
theorem participants_fallback_counts_witness :
    ((some 9, 3) : Option Nat × Nat) ∉
      ([(some 0, 1), (some 1, 2), (some 2, 1), (some 3, 1),
        (some 3, 2), (some 4, 1), (some 5, 1)] : List (Option Nat × Nat)) ∧
    participantCountStep (.error ()) (some 9) 3 = 0 :=
  ⟨by decide, participants_fallback_counts.2 (some 9) 3 (by decide)⟩

/-- C9: goToNextSlide and goToPrevSlide are mutually inverse rotations
modulo the 6 banner images: composing them either way returns the
starting index, and both always land in 0..5. -/
theorem promo_banner_slide_rotation (i : Nat) (hi : i < 6) :
    goToNextSlide (goToPrevSlide i) = i ∧
    goToPrevSlide (goToNextSlide i) = i ∧
    goToNextSlide i < 6 ∧ goToPrevSlide i < 6 := by
  simp only [goToNextSlide, goToPrevSlide, bannerImages_length]
  omega

/-- Witness for the slide rotation at index 3. -/
theorem promo_banner_slide_rotation_witness :
    3 < 6 ∧ (goToNextSlide (goToPrevSlide 3) = 3 ∧
      goToPrevSlide (goToNextSlide 3) = 3 ∧
      goToNextSlide 3 < 6 ∧ goToPrevSlide 3 < 6) :=
  ⟨by decide, promo_banner_slide_rotation 3 (by decide)⟩

theorem defaultDrawIdForSeries_eq (n : Nat) :
    defaultDrawIdForSeries (some n) = if n < 6 then n + 1 else 1 := by
  rcases n with _ | _ | _ | _ | _ | _ | k
  · rfl
  · rfl
  · rfl
  · rfl
  · rfl
  · rfl
  · show 1 = if k + 6 < 6 then k + 6 + 1 else 1
    rw [if_neg (by omega)]

/-- C5: After handleHomeSeriesIndexChange with a new series index n,
the Home shared state and the lottery-data state agree: both series
indices are n and both draw ids are the per-series default, n + 1 for
n in 0..5 and 1 otherwise. -/
theorem home_series_change_sync (s : HomeState) (n : Nat) :
    (handleHomeSeriesIndexChange (.inl (some n)) s).homeSeriesIndex = some n ∧
    (handleHomeSeriesIndexChange (.inl (some n)) s).ldSeriesIndex = some n ∧
    (handleHomeSeriesIndexChange (.inl (some n)) s).homeDrawId
      = some (if n < 6 then n + 1 else 1) ∧
    (handleHomeSeriesIndexChange (.inl (some n)) s).ldDrawId
      = some (if n < 6 then n + 1 else 1) := by
  refine ⟨rfl, rfl, ?_, ?_⟩ <;>
    simp [handleHomeSeriesIndexChange, resolveSetStateAction, defaultDrawIdForSeries_eq]

theorem toggleNumber_preserves (sel : List Nat) (num : Nat)
    (hnd : sel.Nodup) (hlen : sel.length ≤ 5) :
    (toggleNumber num sel).Nodup ∧ (toggleNumber num sel).length ≤ 5 := by
  unfold toggleNumber
  split_ifs with hmem hlt
  · exact ⟨hnd.filter _, le_trans (List.length_filter_le _ _) hlen⟩
  · constructor
    · simp [List.nodup_append, hnd, hmem]
    · simp only [List.length_append, List.length_cons, List.length_nil]
      omega
  · exact ⟨hnd, hlen⟩

/-- C8: toggleNumber removes a present number, appends an absent one
only below 5 selections and otherwise leaves the selection unchanged;
consequently every sequence of toggles starting from a selection of at
most 5 pairwise-distinct numbers keeps the selection pairwise distinct
with at most 5 elements. -/
theorem toggle_number_invariant (start : List Nat)
    (hnd : start.Nodup) (hlen : start.length ≤ 5) :
    (∀ ops : List Nat,
      (applyToggles ops start).Nodup ∧ (applyToggles ops start).length ≤ 5) ∧
    (∀ (sel : List Nat) (n : Nat),
      (n ∈ sel → toggleNumber n sel = sel.filter (fun m => m ≠ n)) ∧
      (n ∉ sel → sel.length < 5 → toggleNumber n sel = sel ++ [n]) ∧
      (n ∉ sel → 5 ≤ sel.length → toggleNumber n sel = sel)) := by
  constructor
  · intro ops
    induction ops generalizing start with
    | nil => exact ⟨hnd, hlen⟩
    | cons op t ih =>
        have hstep := toggleNumber_preserves start op hnd hlen
        simpa [applyToggles, List.foldl_cons] using
          ih (toggleNumber op start) hstep.1 hstep.2
  · intro sel n
    refine ⟨?_, ?_, ?_⟩
    · intro hmem
      unfold toggleNumber
      rw [if_pos hmem]
    · intro hmem hlt
      unfold toggleNumber
      rw [if_neg hmem, if_pos hlt]
    · intro hmem hge
      unfold toggleNumber
      rw [if_neg hmem, if_neg (by omega)]

/-- Witness for the toggle invariant: starting from the distinct
selection 1, 2, 3 and toggling 4, 4, 2 keeps at most 5 distinct
numbers. -/
theorem toggle_number_invariant_witness :
    ([1, 2, 3] : List Nat).Nodup ∧ ([1, 2, 3] : List Nat).length ≤ 5 ∧
    ((applyToggles [4, 4, 2] [1, 2, 3]).Nodup ∧
      (applyToggles [4, 4, 2] [1, 2, 3]).length ≤ 5) :=
  ⟨by decide, by decide,
   (toggle_number_invariant [1, 2, 3] (by decide) (by decide)).1 [4, 4, 2]⟩

/-- C4: The PastWinners load effect clears the winners (with loading
set) exactly when a tracked previous draw id or series index is defined
and differs from the current prop; otherwise the guard step leaves the
winners untouched; the previous-value trackers are always updated to
the current props. -/
theorem past_winners_load_guard (d si : Option Nat) (s : PWState) :
    (paramsChanged d si s = true ↔
      (s.previousDrawId ≠ none ∧ d ≠ s.previousDrawId) ∨
      (s.previousSeriesIndex ≠ none ∧ si ≠ s.previousSeriesIndex)) ∧
    (paramsChanged d si s = true →
      (loadEffectGuard d si s).winners = [] ∧ (loadEffectGuard d si s).isLoading = true) ∧
    (paramsChanged d si s = false →
      (loadEffectGuard d si s).winners = s.winners ∧
      (loadEffectGuard d si s).isLoading = s.isLoading) ∧
    (loadEffectGuard d si s).previousDrawId = d ∧
    (loadEffectGuard d si s).previousSeriesIndex = si := by
  refine ⟨?_, ?_, ?_, ?_, ?_⟩
  · simp [paramsChanged, Option.isSome_iff_ne_none]
  · intro h
    simp [loadEffectGuard, h]
  · intro h
    simp [loadEffectGuard, h]
  · rfl
  · rfl

/-- A concrete PastWinners state with a tracked previous selection and
a nonempty winners list. -/
def pwStateW : PWState :=
  { winners := [fallbackWinner 0], isLoading := false,
    previousDrawId := some 1, previousSeriesIndex := some 0 }

/-- Witness for the load-effect guard: moving from draw 1 to draw 2
clears the winners. -/
theorem past_winners_load_guard_witness :
    paramsChanged (some 2) (some 0) pwStateW = true ∧
    ((loadEffectGuard (some 2) (some 0) pwStateW).winners = [] ∧
      (loadEffectGuard (some 2) (some 0) pwStateW).isLoading = true) :=
  ⟨rfl, (past_winners_load_guard (some 2) (some 0) pwStateW).2.1 rfl⟩

theorem applyWinningNumbers_singleton (completed : Bool)
    (wnRes : Except Unit (List Nat)) (w : Winner) :
    ∃ v : Winner, applyWinningNumbers completed wnRes [w] = [v] ∧
      v.winnerAddress = w.winnerAddress ∧ v.amountWon = w.amountWon ∧
      v.drawId = w.drawId := by
  unfold applyWinningNumbers
  split_ifs with h
  · split
    · rename_i wn
      by_cases h2 : 0 < wn.length
      · rw [if_pos h2]
        exact ⟨addWinningNumbers wn w, rfl, rfl, rfl, rfl⟩
      · rw [if_neg h2]
        exact ⟨w, rfl, rfl, rfl, rfl⟩
    · exact ⟨w, rfl, rfl, rfl, rfl⟩
  · exact ⟨w, rfl, rfl, rfl, rfl⟩

theorem coreWinner_addWinningNumbers (wn : List Nat) (w : Winner) :
    coreWinner (addWinningNumbers wn w) = coreWinner w := rfl

theorem applyWinningNumbers_core (completed : Bool)
    (wnRes : Except Unit (List Nat)) (ws : List Winner) :
    (applyWinningNumbers completed wnRes ws).map coreWinner = ws.map coreWinner := by
  unfold applyWinningNumbers
  split_ifs with h
  · split
    · rename_i wn
      by_cases h2 : 0 < wn.length
      · rw [if_pos h2, List.map_map]
        induction ws with
        | nil => rfl
        | cons w t ih => simp [coreWinner_addWinningNumbers, ih]
      · rw [if_neg h2]
    · rfl
  · rfl

/-- C1: In fetchWinners for draw 1 with series index 0 or undefined, an
empty or throwing getDrawWinners result leaves the winners set to
exactly one hardcoded fallback winner (address 0x03C4bcC1599627e0f766069Ae70E40C62b5d6f1e,
amount 0.0000064, draw 1); a non-empty contract result replaces the
fallback (stated up to the winning-numbers annotation that the
enrichment step may add). -/
theorem past_winners_fetch_fallback (sharedSeriesIndex : Option Nat) (now : Nat)
    (drawInfoRes : Except Unit (Option DrawInfo))
    (drawWinnersRes : Except Unit (List Winner))
    (wnRes : Except Unit (List Nat))
    (hs : sharedSeriesIndex = some 0 ∨ sharedSeriesIndex = none) :
    ((drawWinnersRes = .ok [] ∨ drawWinnersRes = .error ()) →
      ∃ w : Winner,
        fetchWinners 1 sharedSeriesIndex now drawInfoRes drawWinnersRes wnRes = [w] ∧
        w.winnerAddress = "0x03C4bcC1599627e0f766069Ae70E40C62b5d6f1e" ∧
        w.amountWon = "0.0000064" ∧ w.drawId = 1) ∧
    (∀ contractWinners : List Winner, contractWinners ≠ [] →
      drawWinnersRes = .ok contractWinners →
      (fetchWinners 1 sharedSeriesIndex now drawInfoRes drawWinnersRes wnRes).map coreWinner
        = contractWinners.map coreWinner) := by
  constructor
  · intro hw
    obtain ⟨v, hv, ha, hb, hc⟩ :=
      applyWinningNumbers_singleton
        (checkDrawCompletion 1 sharedSeriesIndex drawInfoRes) wnRes (fallbackWinner now)
    refine ⟨v, ?_, ?_, ?_, ?_⟩
    · rcases hw with rfl | rfl <;> simpa [fetchWinners, hs] using hv
    · rw [ha]; rfl
    · rw [hb]; rfl
    · rw [hc]; rfl
  · intro contractWinners hne heq
    subst heq
    have hpos : 0 < contractWinners.length := List.length_pos.mpr hne
    simpa [fetchWinners, hpos] using
      applyWinningNumbers_core
        (checkDrawCompletion 1 sharedSeriesIndex drawInfoRes) wnRes contractWinners

/-- Witness for the fetch fallback: draw 1, series 0, getDrawInfo
returning null and getDrawWinners returning the empty list produce the
single hardcoded winner. -/
theorem past_winners_fetch_fallback_witness :
    ((some 0 : Option Nat) = some 0 ∨ (some 0 : Option Nat) = none) ∧
    ((Except.ok ([] : List Winner) : Except Unit (List Winner)) = .ok [] ∨
      (Except.ok ([] : List Winner) : Except Unit (List Winner)) = .error ()) ∧
    (∃ w : Winner,
      fetchWinners 1 (some 0) 0 (.ok none) (.ok []) (.ok []) = [w] ∧
      w.winnerAddress = "0x03C4bcC1599627e0f766069Ae70E40C62b5d6f1e" ∧
      w.amountWon = "0.0000064" ∧ w.drawId = 1) :=
  ⟨Or.inl rfl, Or.inl rfl,
   (past_winners_fetch_fallback (some 0) 0 (.ok none) (.ok []) (.ok [])
      (Or.inl rfl)).1 (Or.inl rfl)⟩

/-- C2: The refreshWinners of the backup PastWinners file diverges from
the active one: at draw 1, series 0, with the draw reported complete
and the contract returning no winners, the backup stores the hardcoded
fallback winner while the active component stores the empty list. -/
theorem past_winners_refresh_divergence :
    refreshWinnersBak 1 (some 0) 0 (.ok (some { completed := true })) (.ok []) (.ok [])
      = some [fallbackWinner 0] ∧
    refreshWinners 1 (some 0) (.ok (some { completed := true })) (.ok []) (.ok [])
      = some [] ∧
    refreshWinnersBak 1 (some 0) 0 (.ok (some { completed := true })) (.ok []) (.ok [])
      ≠ refreshWinners 1 (some 0) (.ok (some { completed := true })) (.ok []) (.ok []) := by
  refine ⟨?_, ?_, ?_⟩
  · rfl
  · rfl
  · decide

theorem buyStep_inv (e : BuyEnv) (s : BuyState) (ev : BuyEvent)
    (h : (s.showBuyConfirmModal = true ∨ s.showReconfirmModal = true ∨
          s.boughtTicket = true) → buyGuardsOk e = true) :
    ((buyStep e s ev).showBuyConfirmModal = true ∨
     (buyStep e s ev).showReconfirmModal = true ∨
     (buyStep e s ev).boughtTicket = true) → buyGuardsOk e = true := by
  cases ev with
  | buyClick =>
      simp only [buyStep]
      unfold handleBuyClick
      split_ifs with h1 h2 h3 h4
      · intro hh; exact h (by simpa using hh)
      · exact h
      · exact h
      · exact h
      · intro _
        push_neg at h2
        simp only [buyGuardsOk, Bool.and_eq_true, decide_eq_true_eq,
          Bool.not_eq_true', Option.isSome_iff_ne_none]
        refine ⟨⟨⟨⟨?_, h2.1⟩, h2.2⟩, ?_⟩, ?_⟩
        · revert h1; cases e.isConnected <;> simp
        · revert h3; cases e.drawAvailable <;> simp
        · revert h4; cases hz : isTimeRemainingZero e <;> simp
  | initialConfirm =>
      simp only [buyStep]
      split_ifs with hopen
      · intro _; exact h (Or.inl hopen)
      · exact h
  | confirmPurchase =>
      simp only [buyStep]
      split_ifs with hopen
      · intro _; exact h (Or.inr (Or.inl hopen))
      · exact h
  | closeWallet =>
      intro hh; exact h (by simpa [buyStep] using hh)
  | closeBuyConfirm =>
      intro hh
      apply h
      simp only [buyStep] at hh
      rcases hh with hh | hh
      · simp at hh
      · exact Or.inr (by simpa using hh)
  | closeReconfirm =>
      intro hh
      apply h
      simp only [buyStep] at hh
      rcases hh with hh | hh | hh
      · exact Or.inl (by simpa using hh)
      · simp at hh
      · exact Or.inr (Or.inr (by simpa using hh))

theorem runBuyFlow_inv (e : BuyEnv) (events : List BuyEvent) :
    ((runBuyFlow e events).showBuyConfirmModal = true ∨
     (runBuyFlow e events).showReconfirmModal = true ∨
     (runBuyFlow e events).boughtTicket = true) → buyGuardsOk e = true := by
  suffices h : ∀ (l : List BuyEvent) (s : BuyState),
      ((s.showBuyConfirmModal = true ∨ s.showReconfirmModal = true ∨
        s.boughtTicket = true) → buyGuardsOk e = true) →
      (((l.foldl (buyStep e) s).showBuyConfirmModal = true ∨
        (l.foldl (buyStep e) s).showReconfirmModal = true ∨
        (l.foldl (buyStep e) s).boughtTicket = true) → buyGuardsOk e = true) by
    exact h events initialBuyState (by intro hh; simp [initialBuyState] at hh)
  intro l
  induction l with
  | nil => intro s hs; exact hs
  | cons ev t ih =>
      intro s hs
      simp only [List.foldl_cons]
      exact ih _ (buyStep_inv e s ev hs)

/-- C7: Over any run of the BuyTickets modal flow, the buyTicket
contract call is never invoked unless the wallet is connected, exactly
5 main numbers and a LOTTO number are selected, a draw is available and
the countdown is not reported zero; and with no wallet connected,
handleBuyClick only opens the wallet modal. -/
theorem buy_tickets_purchase_guard (e : BuyEnv) (events : List BuyEvent) :
    ((runBuyFlow e events).boughtTicket = true →
      e.isConnected = true ∧ e.selectedNumbers.length = 5 ∧
      e.selectedLottoNumber.isSome = true ∧ e.drawAvailable = true ∧
      isTimeRemainingZero e = false) ∧
    (∀ s : BuyState, e.isConnected = false →
      handleBuyClick e s = { s with showWalletModal := true }) := by
  constructor
  · intro hb
    have h := runBuyFlow_inv e events (Or.inr (Or.inr hb))
    simp only [buyGuardsOk, Bool.and_eq_true, decide_eq_true_eq,
      Bool.not_eq_true'] at h
    exact ⟨h.1.1.1.1, h.1.1.1.2, h.1.1.2, h.1.2, h.2⟩
  · intro s hc
    unfold handleBuyClick
    rw [if_pos hc]

/-- The environment of the purchase-flow witness: wallet connected,
5 numbers and a LOTTO number picked, a draw available, time left. -/
def buyEnvW : BuyEnv :=
  { isConnected := true, selectedNumbers := [1, 2, 3, 4, 5],
    selectedLottoNumber := some 7, drawAvailable := true,
    timeRemaining := some (1, 2, 3, 4) }

/-- Witness for the purchase guard: the full click-through buys a
ticket, so all preconditions hold; and a disconnected click only opens
the wallet modal. -/
theorem buy_tickets_purchase_guard_witness :
    (buyEnvW.isConnected = true ∧ buyEnvW.selectedNumbers.length = 5 ∧
      buyEnvW.selectedLottoNumber.isSome = true ∧ buyEnvW.drawAvailable = true ∧
      isTimeRemainingZero buyEnvW = false) ∧
    handleBuyClick { buyEnvW with isConnected := false } initialBuyState
      = { initialBuyState with showWalletModal := true } :=
  ⟨(buy_tickets_purchase_guard buyEnvW
      [.buyClick, .initialConfirm, .confirmPurchase]).1 (by decide),
   (buy_tickets_purchase_guard { buyEnvW with isConnected := false } []).2
      initialBuyState rfl⟩

/-- C10: In renderParticipantsView, the page count is
max(1, ceil(totalTickets divided by pageSize)) and covers every ticket,
the rendered tickets are exactly the slice of the list from
(currentPage - 1) * pageSize to min(currentPage * pageSize,
totalTickets), every page number rendered as a pagination link lies
between 1 and the page count, and the Previous and Next handlers clamp
the current page to that range. -/
theorem participants_pagination_bounds (l : List Ticket) (currentPage pageSize : Nat)
    (hps : 0 < pageSize) (hcp1 : 1 ≤ currentPage)
    (hcp2 : currentPage ≤ pageCount l.length pageSize) :
    pageCount l.length pageSize = max 1 ((l.length + pageSize - 1) / pageSize) ∧
    l.length ≤ pageCount l.length pageSize * pageSize ∧
    currentTickets l currentPage pageSize
      = (l.take (min (currentPage * pageSize) l.length)).drop
          ((currentPage - 1) * pageSize) ∧
    (∀ p ∈ renderedPageLinks (pageCount l.length pageSize) currentPage,
      1 ≤ p ∧ p ≤ (pageCount l.length pageSize : Int)) ∧
    (1 ≤ prevPageClick currentPage ∧
     prevPageClick currentPage ≤ pageCount l.length pageSize ∧
     1 ≤ nextPageClick (pageCount l.length pageSize) currentPage ∧
     nextPageClick (pageCount l.length pageSize) currentPage
       ≤ pageCount l.length pageSize) := by
  have hpc1 : 1 ≤ pageCount l.length pageSize := le_max_left _ _
  refine ⟨rfl, ?_, ?_, ?_, ?_⟩
  · have key : l.length ≤ ((l.length + pageSize - 1) / pageSize) * pageSize := by
      have hq := Nat.div_add_mod (l.length + pageSize - 1) pageSize
      have hm := Nat.mod_lt (l.length + pageSize - 1) hps
      rw [Nat.mul_comm]
      generalize pageSize * ((l.length + pageSize - 1) / pageSize) = P at hq ⊢
      generalize (l.length + pageSize - 1) % pageSize = r at hq hm
      omega
    calc l.length ≤ ((l.length + pageSize - 1) / pageSize) * pageSize := key
      _ ≤ pageCount l.length pageSize * pageSize :=
        Nat.mul_le_mul_right _ (le_max_right 1 _)
  · have hmul : (currentPage - 1) * pageSize + pageSize = currentPage * pageSize := by
      obtain ⟨k, rfl⟩ : ∃ k, currentPage = k + 1 := ⟨currentPage - 1, by omega⟩
      simp [Nat.succ_sub_one, Nat.succ_mul]
    unfold currentTickets jsSlice
    rw [hmul]
    congr 1
    rw [← List.take_take, List.take_length]
  · intro p hp
    simp only [renderedPageLinks, List.mem_append, List.mem_filterMap,
      List.mem_range] at hp
    rcases hp with ⟨i, hi, hif⟩ | hp
    · split_ifs at hif with hcond
      obtain rfl : pageNumberAt (pageCount l.length pageSize) currentPage i = p :=
        Option.some.inj hif
      exact ⟨hcond.1, hcond.2⟩
    · split_ifs at hp with hcond
      · simp only [List.mem_singleton] at hp
        subst hp
        exact ⟨by exact_mod_cast hpc1, le_refl _⟩
      · simp at hp
  · refine ⟨?_, ?_, ?_, ?_⟩ <;> simp only [prevPageClick, nextPageClick] <;> omega

/-- A concrete participant ticket for the pagination witness. -/
def ticketW : Ticket :=
  { walletAddress := "0x03C4bcC1599627e0f766069Ae70E40C62b5d6f1e",
    numbers := [1, 2, 3, 4, 5], lottoNumber := some 6,
    timestamp := 0, ticketId := "1-0" }

/-- Witness for the pagination bounds: 12 tickets, page 2 of size 5. -/
theorem participants_pagination_bounds_witness :
    0 < 5 ∧ 1 ≤ 2 ∧ 2 ≤ pageCount (List.replicate 12 ticketW).length 5 ∧
    (pageCount (List.replicate 12 ticketW).length 5
        = max 1 (((List.replicate 12 ticketW).length + 5 - 1) / 5) ∧
     (List.replicate 12 ticketW).length
        ≤ pageCount (List.replicate 12 ticketW).length 5 * 5 ∧
     currentTickets (List.replicate 12 ticketW) 2 5
        = ((List.replicate 12 ticketW).take
            (min (2 * 5) (List.replicate 12 ticketW).length)).drop ((2 - 1) * 5) ∧
     (∀ p ∈ renderedPageLinks (pageCount (List.replicate 12 ticketW).length 5) 2,
        1 ≤ p ∧ p ≤ (pageCount (List.replicate 12 ticketW).length 5 : Int)) ∧
     (1 ≤ prevPageClick 2 ∧
      prevPageClick 2 ≤ pageCount (List.replicate 12 ticketW).length 5 ∧
      1 ≤ nextPageClick (pageCount (List.replicate 12 ticketW).length 5) 2 ∧
      nextPageClick (pageCount (List.replicate 12 ticketW).length 5) 2
        ≤ pageCount (List.replicate 12 ticketW).length 5)) :=
  ⟨by decide, by decide, by decide,
   participants_pagination_bounds (List.replicate 12 ticketW) 2 5
     (by decide) (by decide) (by decide)⟩

end ChainLottery
